import Mathlib

/-!
Verification of the credential-derivation core of no-pass-plz.

The embedding follows src/crates/passwd-derive/src/lib.rs and src/src/gui/app.rs.
Machine bytes are modelled as Nat values below 256, byte strings as List Nat,
and 64-bit lanes as Nat values reduced modulo 2 ^ 64.  The external crates
sha3, hmac and hex implement the standard FIPS 202 / RFC 2104 algorithms,
which are embedded here directly; the external Argon2 key-derivation function
is kept as an explicit function parameter, since no claim depends on its
internals.
-/

namespace NoPassPlz

/-- Left rotation of a 64-bit lane, the basic operation of Keccak. -/
def rotl64 (v n : Nat) : Nat := ((v <<< n) ||| (v >>> (64 - n))) % (2 ^ 64)

/-- One step of the 8-bit LFSR of FIPS 202 Algorithm 5 (polynomial
x^8 + x^6 + x^5 + x^4 + 1 over GF(2)) that generates the round constants. -/
def rcLfsr (r : Nat) : Nat :=
  if r / 128 % 2 = 1 then ((r * 2) ^^^ 0x71) % 256 else (r * 2) % 256

/-- The first n output bits of the round-constant LFSR started at state r. -/
def rcBits : Nat → Nat → List Nat
  | 0, _ => []
  | n + 1, r => (r % 2) :: rcBits n (rcLfsr r)

/-- The 24 Keccak round constants of keccak-f[1600], assembled from the LFSR
bit stream: bit j of round i is drawn at stream position 7 * i + j and placed
at lane position 2 ^ j - 1 (FIPS 202 Algorithm 5). -/
def keccakRC : List Nat :=
  (List.range 24).map (fun i =>
    (List.range 7).foldl
      (fun acc j => acc + (rcBits 168 1).getD (7 * i + j) 0 * 2 ^ (2 ^ j - 1)) 0)

/-- One step of the rho offset walk of FIPS 202: write the triangular-number
rotation at the current lane (x, y) and move to (y, (2 x + 3 y) % 5). -/
def rhoStep (s : Nat × Nat × List Nat) (t : Nat) : Nat × Nat × List Nat :=
  (s.2.1, (2 * s.1 + 3 * s.2.1) % 5,
    s.2.2.set (s.1 + 5 * s.2.1) ((t + 1) * (t + 2) / 2 % 64))

/-- The Keccak rotation offsets indexed by x + 5 * y, generated by the
24-step walk of FIPS 202 starting from lane (1, 0); lane (0, 0) keeps
rotation 0. -/
def rhoOffsets : List Nat :=
  ((List.range 24).foldl rhoStep (1, 0, List.replicate 25 0)).2.2

/-- Lane (x, y) of a 25-lane Keccak state stored row-major (index x + 5 * y). -/
def lane (A : List Nat) (x y : Nat) : Nat := A.getD (x % 5 + 5 * (y % 5)) 0

/-- Column parity used by the theta step. -/
def thetaC (A : List Nat) (x : Nat) : Nat :=
  lane A x 0 ^^^ lane A x 1 ^^^ lane A x 2 ^^^ lane A x 3 ^^^ lane A x 4

/-- The theta mixing value for column x. -/
def thetaD (A : List Nat) (x : Nat) : Nat :=
  thetaC A ((x + 4) % 5) ^^^ rotl64 (thetaC A ((x + 1) % 5)) 1

/-- Keccak theta step. -/
def theta (A : List Nat) : List Nat :=
  (List.range 25).map (fun j => A.getD j 0 ^^^ thetaD A (j % 5))

/-- Keccak rho and pi steps combined: the output lane (x, y) is the rotated
source lane ((x + 3 * y) % 5, x). -/
def rhoPi (A : List Nat) : List Nat :=
  (List.range 25).map (fun j =>
    rotl64 (lane A ((j % 5 + 3 * (j / 5)) % 5) (j % 5))
      (rhoOffsets.getD ((j % 5 + 3 * (j / 5)) % 5 + 5 * (j % 5)) 0))

/-- Keccak chi step (64-bit complement written as xor with the all-ones lane). -/
def chi (A : List Nat) : List Nat :=
  (List.range 25).map (fun j =>
    lane A (j % 5) (j / 5) ^^^
      (((2 ^ 64 - 1) ^^^ lane A (j % 5 + 1) (j / 5)) &&& lane A (j % 5 + 2) (j / 5)))

/-- One round of keccak-f[1600]: theta, rho, pi, chi, then iota. -/
def keccakRound (A : List Nat) (rc : Nat) : List Nat :=
  let B := chi (rhoPi (theta A))
  B.set 0 (B.getD 0 0 ^^^ rc)

/-- The full keccak-f[1600] permutation: 24 rounds. -/
def keccakF (A : List Nat) : List Nat := keccakRC.foldl keccakRound A

/-- A little-endian 64-bit lane from up to eight bytes. -/
def laneOfBytes (bs : List Nat) : Nat := bs.foldr (fun b acc => b % 256 + 256 * acc) 0

/-- Split a byte list into chunks of size k + 1. -/
def chunksOf : Nat → List Nat → List (List Nat)
  | _, [] => []
  | k, a :: rest => ((a :: rest).take (k + 1)) :: chunksOf k ((a :: rest).drop (k + 1))
termination_by _ l => l.length
decreasing_by simp [List.length_drop]; omega

/-- A 72-byte rate block as nine 64-bit lanes. -/
def bytesToLanes (bs : List Nat) : List Nat := (chunksOf 7 bs).map laneOfBytes

/-- Xor a block of lanes into the first lanes of the state. -/
def xorInto (st lanes : List Nat) : List Nat :=
  (List.range 25).map (fun j => st.getD j 0 ^^^ lanes.getD j 0)

/-- Absorb a list of 72-byte rate blocks into the sponge state. -/
def absorbBlocks (st : List Nat) (blocks : List (List Nat)) : List Nat :=
  blocks.foldl (fun s b => keccakF (xorInto s (bytesToLanes b))) st

/-- SHA-3 pad10*1 padding with the 0x06 domain byte, to a multiple of the
72-byte SHA3-512 rate. -/
def sha3Pad (msg : List Nat) : List Nat :=
  let q := 72 - msg.length % 72
  if q = 1 then msg ++ [0x86]
  else msg ++ (0x06 :: (List.replicate (q - 2) 0 ++ [0x80]))

/-- The eight little-endian bytes of a 64-bit lane. -/
def laneToBytes (v : Nat) : List Nat :=
  [v % 256, (v >>> 8) % 256, (v >>> 16) % 256, (v >>> 24) % 256,
   (v >>> 32) % 256, (v >>> 40) % 256, (v >>> 48) % 256, (v >>> 56) % 256]

/-- The 200 state bytes of a 25-lane Keccak state. -/
def stateBytes (st : List Nat) : List Nat := (st.map laneToBytes).flatten

/-- SHA3-512 of a byte string (FIPS 202): absorb the padded message at rate 72
and take the first 64 squeezed bytes.  This is the hash the sha3 crate
implements for the Sha3_512 type used throughout lib.rs. -/
def sha3_512 (msg : List Nat) : List Nat :=
  List.take 64 (stateBytes (absorbBlocks (List.replicate 25 0) (chunksOf 71 (sha3Pad msg))))

/-- The lowercase hex digit for a nibble, as produced by the hex crate. -/
def hexDigitChar (n : Nat) : Char :=
  Char.ofNat (n + (if n < 10 then 48 else 87))

/-- Lowercase hex encoding of a byte string (hex::encode in lib.rs line 94). -/
def hexEncode (bs : List Nat) : String :=
  String.mk (bs.flatMap (fun b => [hexDigitChar (b / 16 % 16), hexDigitChar (b % 16)]))

/-- HMAC key block: keys longer than the 72-byte SHA3-512 block are hashed,
then the key is zero-padded to 72 bytes (RFC 2104, as in the hmac crate). -/
def hmacKeyBlock (key : List Nat) : List Nat :=
  let k := if 72 < key.length then sha3_512 key else key
  k ++ List.replicate (72 - k.length) 0

/-- HMAC-SHA3-512, the Hmac<Sha3_512> mac built in lib.rs lines 87-89:
H((k0 xor opad) ++ H((k0 xor ipad) ++ msg)). -/
def hmacSha3_512 (key msg : List Nat) : List Nat :=
  let k0 := hmacKeyBlock key
  sha3_512 ((k0.map (fun b => b ^^^ 0x5c)) ++ sha3_512 ((k0.map (fun b => b ^^^ 0x36)) ++ msg))

/-- The big-endian 4-byte encoding of a u32 index (index.to_be_bytes in
lib.rs line 88). -/
def u32BeBytes (i : Nat) : List Nat :=
  [i / 2 ^ 24 % 256, i / 2 ^ 16 % 256, i / 2 ^ 8 % 256, i % 256]

/-- The UTF-8 bytes of a string (username.as_bytes in lib.rs line 70). -/
def utf8Bytes (s : String) : List Nat := s.toUTF8.toList.map (fun b => b.toNat)

/-- The distinct error values the core and the app produce.  The source boxes
string messages (Box<dyn Error>); each constructor stands for one distinct
message, named as in the spec taxonomy:
emptyUsername = "Username is empty" (lib.rs line 114),
emptyPassword = "Password is empty" (lib.rs line 118),
passwordMismatch = "Passwords do not match" (lib.rs line 126),
kdfFailure = a failure reported by argon2_rs::Argon2::hash_password,
seedConversionFailure = the SecureArray::try_from length failure (lib.rs line 80),
noDeriverInstance = "No deriver instance found" (app.rs line 56). -/
inductive Error where
  | emptyUsername
  | emptyPassword
  | passwordMismatch
  | kdfFailure
  | seedConversionFailure
  | noDeriverInstance
deriving DecidableEq, Repr

/-- The Argon2 parameter record of the argon2_rs crate, restricted to the
fields the repository reads: m_cost (KiB), t_cost, p_cost, hash_length. -/
structure Argon2 where
  m_cost : Nat
  t_cost : Nat
  p_cost : Nat
  hash_length : Nat
deriving DecidableEq, Repr

/-- Modelled from the spec: RECOMMENDED_HASH_LENGTH is a constant of the
external argon2_rs crate, stated by the spec as the "fixed 64-byte output
length" of every preset (consistent with the SecureArray<u8, 64> conversion
succeeding in the test of the repository). -/
def RECOMMENDED_HASH_LENGTH : Nat := 64

/-- A memory cost of g GB-equivalent in KiB units: g * 1024000 KiB is
g * 1.048 GB of backing memory (auth.rs line 278 converts m_cost KiB to GB
by multiplying with 1024). -/
def gbEquiv (g : Nat) : Nat := g * 1024000

/-- The fast preset (lib.rs lines 9-17). -/
def fast : Argon2 :=
  { m_cost := 2048000, t_cost := 8, p_cost := 1, hash_length := RECOMMENDED_HASH_LENGTH }

/-- The normal preset (lib.rs lines 20-28). -/
def normal : Argon2 :=
  { m_cost := 4096000, t_cost := 8, p_cost := 1, hash_length := RECOMMENDED_HASH_LENGTH }

/-- The slow preset (lib.rs lines 31-39). -/
def slow : Argon2 :=
  { m_cost := 8192000, t_cost := 8, p_cost := 1, hash_length := RECOMMENDED_HASH_LENGTH }

/-- The very_slow preset (lib.rs lines 42-50). -/
def very_slow : Argon2 :=
  { m_cost := 8192000, t_cost := 16, p_cost := 1, hash_length := RECOMMENDED_HASH_LENGTH }

/-- The secure_types SecureArray<u8, 64> container: the backing bytes plus
the erased flag set by SecureArray::erase. -/
structure SecureArray64 where
  data : List Nat
  erased : Bool
deriving DecidableEq, Repr

/-- SecureArray::try_from a byte vector: succeeds exactly when the vector has
the fixed length 64, otherwise the conversion error the spec names
SeedConversionFailure (lib.rs line 80). -/
def SecureArray64.tryFrom (v : List Nat) : Except Error SecureArray64 :=
  if v.length = 64 then .ok { data := v, erased := false } else .error .seedConversionFailure

/-- Scoped access to the secret bytes (SecureArray::unlock). -/
def SecureArray64.unlock {R : Type} (a : SecureArray64) (f : List Nat → R) : R := f a.data

/-- SecureArray::erase: the backing storage is wiped to zeros and the
container invalidated. -/
def SecureArray64.erase (a : SecureArray64) : SecureArray64 :=
  { data := a.data.map (fun _ => 0), erased := true }

/-- The composition root of lib.rs lines 52-56: one owned 64-byte seed plus
the Argon2 parameters. -/
structure PasswordDeriver where
  seed : SecureArray64
  argon2 : Argon2
deriving DecidableEq, Repr

/-- The type of the external Argon2 key-derivation call
argon2.hash_password(password, salt) of lib.rs line 77: parameters, password
and salt bytes to either the output bytes or a KDF failure.  Kept abstract
because argon2_rs is an external crate whose internals no claim depends on. -/
def Kdf : Type := Argon2 → String → List Nat → Except Error (List Nat)

/-- validate_credentials (lib.rs lines 108-130): username character length,
then password character length, then password equality against the
confirmation.  String.length counts characters, matching char_len in the source (not byte length). -/
def validate_credentials (username password confirm_password : String) : Except Error Unit :=
  if username.length = 0 then .error .emptyUsername
  else if password.length = 0 then .error .emptyPassword
  else if password = confirm_password then .ok () else .error .passwordMismatch

/-- PasswordDeriver::new (lib.rs lines 59-83): validate, hash the username
with SHA3-512 to obtain the salt, run the KDF over the password and that
salt, and convert the output into the fixed 64-byte secure container. -/
def PasswordDeriver.new (kdf : Kdf) (username password confirm_password : String)
    (argon2 : Argon2) : Except Error PasswordDeriver := do
  validate_credentials username password confirm_password
  let username_hash := sha3_512 (utf8Bytes username)
  let hash ← kdf argon2 password username_hash
  let seed ← SecureArray64.tryFrom hash
  pure { seed := seed, argon2 := argon2 }

/-- PasswordDeriver::derive_at (lib.rs lines 85-101): under scoped access to
the seed, the HMAC-SHA3-512 of the big-endian 4-byte index keyed by the seed,
hex-encoded. -/
def PasswordDeriver.derive_at (d : PasswordDeriver) (index : Nat) : String :=
  d.seed.unlock (fun seed => hexEncode (hmacSha3_512 seed (u32BeBytes index)))

/-- PasswordDeriver::erase (lib.rs lines 103-105). -/
def PasswordDeriver.erase (d : PasswordDeriver) : PasswordDeriver :=
  { d with seed := d.seed.erase }

/-- The derived Clone of PasswordDeriver (lib.rs line 52): a field-wise copy
yielding a second independently owned instance with equal seed bytes. -/
def PasswordDeriver.clone (d : PasswordDeriver) : PasswordDeriver := d

/-- The per-index metadata stored by the app (app.rs lines 88-93). -/
structure IndexData where
  exposed : Bool
  title : String
  description : String
deriving DecidableEq, Repr

/-- The application state behind the AppCtx lock (app.rs lines 62-67). -/
structure AppData where
  passwd_derive : Option PasswordDeriver
  index_map : List (Nat × IndexData)

/-- AppCtx::read (app.rs lines 19-21): an operation run under the shared read
lock observes the state and cannot change it, so the state threaded through
is returned unchanged. -/
def AppData.readOp {R : Type} (app : AppData) (f : AppData → R) : R × AppData := (f app, app)

/-- AppCtx::derive_at (app.rs lines 51-59): under shared read access, either
the derive_at output of the stored deriver or the "No deriver instance found"
error when no deriver is stored. -/
def AppCtx.derive_at (app : AppData) (index : Nat) : Except Error String × AppData :=
  app.readOp (fun a =>
    match a.passwd_derive with
    | some deriver => .ok (deriver.derive_at index)
    | none => .error .noDeriverInstance)

/-- App::on_shutdown (app.rs lines 125-133): when a close is requested, take
the deriver out of the application state and erase it.  The second result
component is the erased deriver that the source then drops, kept here so its
final contents can be inspected. -/
def App.on_shutdown (close_requested : Bool) (app : AppData) :
    AppData × Option PasswordDeriver :=
  if close_requested then
    match app.passwd_derive with
    | some deriver => ({ app with passwd_derive := none }, some deriver.erase)
    | none => (app, none)
  else (app, none)

/-- What happens to a buffer at one step of the source. -/
inductive BufAction where
  | created
  | consumed
  | zeroized
deriving DecidableEq, Repr

/-- One step of the source acting on a named intermediate buffer. -/
structure BufEvent where
  buf : String
  act : BufAction
deriving DecidableEq, Repr

/-- The intermediate secret-derived buffers of PasswordDeriver::new
(lib.rs lines 67-80) in source order:
line 73 creates the SHA3 digest; line 74 consumes it into the username_hash
vector; line 75 zeroizes the digest; line 77 consumes the username_hash
vector as the KDF salt and creates the KDF output; line 79 moves the KDF
output into the SecureVec container. -/
def newBufferTrace : List BufEvent :=
  [{ buf := "digest", act := .created },
   { buf := "digest", act := .consumed },
   { buf := "username_hash", act := .created },
   { buf := "digest", act := .zeroized },
   { buf := "username_hash", act := .consumed },
   { buf := "kdf_output", act := .created },
   { buf := "kdf_output", act := .consumed }]

/-- The intermediate secret-derived buffers of PasswordDeriver::derive_at
(lib.rs lines 86-98) in source order:
line 89 creates the HMAC output; line 91 consumes it into the hash vector;
line 92 zeroizes the HMAC output; line 94 consumes the hash vector into the
hex string; line 95 zeroizes the hash vector; line 97 moves the hex string
into SecureString::from, with no zero overwrite of the string in this code. -/
def deriveAtBufferTrace : List BufEvent :=
  [{ buf := "hmac_output", act := .created },
   { buf := "hmac_output", act := .consumed },
   { buf := "hash_vec", act := .created },
   { buf := "hmac_output", act := .zeroized },
   { buf := "hash_vec", act := .consumed },
   { buf := "hex_string", act := .created },
   { buf := "hash_vec", act := .zeroized },
   { buf := "hex_string", act := .consumed }]

/-- A buffer is explicitly overwritten with zeros after its value has been
consumed: some consumption event is followed by a zeroize event of the same
buffer. -/
def zeroizedAfterConsumed (t : List BufEvent) (b : String) : Prop :=
  ∃ i j, i < j ∧ t.get? i = some { buf := b, act := .consumed }
    ∧ t.get? j = some { buf := b, act := .zeroized }

/-- A lowercase hex character: a decimal digit or one of a to f. -/
def isLowerHexChar (c : Char) : Prop := ('0' ≤ c ∧ c ≤ '9') ∨ ('a' ≤ c ∧ c ≤ 'f')

instance (c : Char) : Decidable (isLowerHexChar c) := by
  unfold isLowerHexChar
  infer_instance

/-- The KDF that returns the all-zero 64-byte output, used to exercise the
constructor on concrete inputs. -/
def zeroKdf : Kdf := fun _ _ _ => .ok (List.replicate 64 0)

/-- The KDF that always fails. -/
def failKdf : Kdf := fun _ _ _ => .error .kdfFailure

/-- A concrete deriver in the Ready state with a nonzero seed. -/
def sampleDeriver : PasswordDeriver :=
  { seed := { data := List.replicate 64 171, erased := false }, argon2 := normal }

/-- A concrete deriver in the Ready state whose seed happens to be all zeros. -/
def zeroSeedDeriver : PasswordDeriver :=
  { seed := { data := List.replicate 64 0, erased := false }, argon2 := fast }

/-- A concrete application state holding a deriver. -/
def sampleApp : AppData := { passwd_derive := some sampleDeriver, index_map := [] }

theorem keccakRound_length (A : List Nat) (rc : Nat) : (keccakRound A rc).length = 25 := by
  simp [keccakRound, chi]

theorem foldl_keccakRound_length (l : List Nat) (A : List Nat) (h : A.length = 25) :
    (l.foldl keccakRound A).length = 25 := by
  induction l generalizing A with
  | nil => simpa using h
  | cons a t ih => simpa using ih (keccakRound A a) (keccakRound_length A a)

theorem keccakF_length (A : List Nat) (h : A.length = 25) : (keccakF A).length = 25 :=
  foldl_keccakRound_length keccakRC A h

theorem xorInto_length (st lanes : List Nat) : (xorInto st lanes).length = 25 := by
  simp [xorInto]

theorem absorbBlocks_length (blocks : List (List Nat)) (st : List Nat) (h : st.length = 25) :
    (absorbBlocks st blocks).length = 25 := by
  induction blocks generalizing st with
  | nil => simpa [absorbBlocks] using h
  | cons b t ih =>
    have hstep : absorbBlocks st (b :: t) =
        absorbBlocks (keccakF (xorInto st (bytesToLanes b))) t := rfl
    rw [hstep]
    exact ih _ (keccakF_length _ (xorInto_length _ _))

theorem stateBytes_length (st : List Nat) : (stateBytes st).length = 8 * st.length := by
  induction st with
  | nil => rfl
  | cons v t ih =>
    have hstep : stateBytes (v :: t) = laneToBytes v ++ stateBytes t := rfl
    rw [hstep]
    simp only [List.length_append, ih, List.length_cons]
    simp [laneToBytes]
    ring

theorem sha3_512_length (msg : List Nat) : (sha3_512 msg).length = 64 := by
  have h : (absorbBlocks (List.replicate 25 0) (chunksOf 71 (sha3Pad msg))).length = 25 :=
    absorbBlocks_length _ _ (by simp)
  unfold sha3_512
  rw [List.length_take, stateBytes_length, h]
  decide

theorem hmacSha3_512_length (key msg : List Nat) : (hmacSha3_512 key msg).length = 64 := by
  unfold hmacSha3_512
  exact sha3_512_length _

theorem hexEncode_data_length (l : List Nat) :
    (l.flatMap (fun b => [hexDigitChar (b / 16 % 16), hexDigitChar (b % 16)])).length
      = 2 * l.length := by
  induction l with
  | nil => simp
  | cons a r ih =>
    simp only [List.flatMap_cons, List.length_append, List.length_cons, List.length_nil, ih]
    ring

theorem hexEncode_length (bs : List Nat) : (hexEncode bs).length = 2 * bs.length :=
  hexEncode_data_length bs

theorem hexDigitChar_isLowerHex : ∀ n < 16, isLowerHexChar (hexDigitChar n) := by decide

theorem hexEncode_chars (bs : List Nat) : ∀ c ∈ (hexEncode bs).toList, isLowerHexChar c := by
  intro c hc
  have hc2 : c ∈ bs.flatMap (fun b => [hexDigitChar (b / 16 % 16), hexDigitChar (b % 16)]) := hc
  rw [List.mem_flatMap] at hc2
  obtain ⟨b, _, hcb⟩ := hc2
  simp only [List.mem_cons, List.not_mem_nil, or_false] at hcb
  rcases hcb with h | h <;> subst h <;>
    exact hexDigitChar_isLowerHex _ (Nat.mod_lt _ (by norm_num))

/-- Claim C1: for every 64-byte seed and every index in [0, 2^32 - 1],
derive_at computes HMAC-SHA3-512 over the big-endian 4-byte encoding of the
index, keyed by the seed, and returns its hex encoding: a string of exactly
128 lowercase hex characters, as a total function with no error path. -/
theorem derive_at_spec (d : PasswordDeriver) (i : Nat) (_h32 : i < 2 ^ 32) :
    d.derive_at i = hexEncode (hmacSha3_512 d.seed.data (u32BeBytes i)) ∧
    (d.derive_at i).length = 128 ∧
    ∀ c ∈ (d.derive_at i).toList, isLowerHexChar c := by
  refine ⟨rfl, ?_, hexEncode_chars _⟩
  show (hexEncode (hmacSha3_512 d.seed.data (u32BeBytes i))).length = 128
  rw [hexEncode_length, hmacSha3_512_length]

/-- Witness for C1 at a concrete deriver and index 3. -/
theorem derive_at_spec_witness :
    (3 < 2 ^ 32) ∧
    (sampleDeriver.derive_at 3 =
        hexEncode (hmacSha3_512 sampleDeriver.seed.data (u32BeBytes 3)) ∧
      (sampleDeriver.derive_at 3).length = 128 ∧
      ∀ c ∈ (sampleDeriver.derive_at 3).toList, isLowerHexChar c) :=
  ⟨by norm_num, derive_at_spec sampleDeriver 3 (by norm_num)⟩

/-- Claim C2: when validation passes, the constructor salts with
SHA3-512 of the username bytes, runs the KDF over the password with that salt
and the chosen parameters, and copies the output into the fixed 64-byte
container; a KDF output of any other length is the fatal
SeedConversionFailure, so a successfully constructed deriver holds exactly
the 64 KDF output bytes as its seed. -/
theorem new_spec (kdf : Kdf) (u p c : String) (params : Argon2) (out : List Nat)
    (hval : validate_credentials u p c = .ok ())
    (hkdf : kdf params p (sha3_512 (utf8Bytes u)) = .ok out) :
    PasswordDeriver.new kdf u p c params =
      if out.length = 64
      then .ok { seed := { data := out, erased := false }, argon2 := params }
      else .error .seedConversionFailure := by
  by_cases h : out.length = 64 <;>
    simp [PasswordDeriver.new, hval, hkdf, SecureArray64.tryFrom, h, bind, Except.bind,
      pure, Except.pure]

/-- Witness for C2: concrete credentials and a KDF returning 64 zero bytes. -/
theorem new_spec_witness :
    (validate_credentials "a" "b" "b" = .ok ()) ∧
    (zeroKdf fast "b" (sha3_512 (utf8Bytes "a")) = .ok (List.replicate 64 0)) ∧
    (PasswordDeriver.new zeroKdf "a" "b" "b" fast =
      if (List.replicate 64 (0 : Nat)).length = 64
      then .ok { seed := { data := List.replicate 64 0, erased := false }, argon2 := fast }
      else .error .seedConversionFailure) :=
  ⟨rfl, rfl, new_spec zeroKdf "a" "b" "b" fast (List.replicate 64 0) rfl rfl⟩

/-- Claim C3: validation performs exactly three checks in order, on character
length (String.length counts characters, as char_len does): a zero-length
username fails with EmptyUsername, then a zero-length password with
EmptyPassword, then a password differing from the confirmation with
PasswordMismatch; the first failing check decides the error, and only when
all three pass does validation succeed.  The embedding is a pure function,
so failure has no side effects. -/
theorem validate_credentials_spec (u p c : String) :
    (validate_credentials u p c = .error .emptyUsername ↔ u.length = 0) ∧
    (validate_credentials u p c = .error .emptyPassword ↔ (u.length ≠ 0 ∧ p.length = 0)) ∧
    (validate_credentials u p c = .error .passwordMismatch ↔
      (u.length ≠ 0 ∧ p.length ≠ 0 ∧ p ≠ c)) ∧
    (validate_credentials u p c = .ok () ↔ (u.length ≠ 0 ∧ p.length ≠ 0 ∧ p = c)) := by
  unfold validate_credentials
  split_ifs with h1 h2 h3 <;> simp_all

/-- Claim C4: when validation fails, the constructor returns that validation
error for every possible KDF, so the key-derivation function is never
invoked, no seed is established, and no deriver value exists afterwards. -/
theorem new_fail_fast (kdf kdf₂ : Kdf) (u p c : String) (params : Argon2) (e : Error)
    (hval : validate_credentials u p c = .error e) :
    PasswordDeriver.new kdf u p c params = .error e ∧
    PasswordDeriver.new kdf u p c params = PasswordDeriver.new kdf₂ u p c params := by
  constructor <;> simp [PasswordDeriver.new, hval, bind, Except.bind]

/-- Witness for C4: an empty username fails identically under a succeeding
and a failing KDF. -/
theorem new_fail_fast_witness :
    (validate_credentials "" "b" "b" = .error .emptyUsername) ∧
    (PasswordDeriver.new zeroKdf "" "b" "b" fast = .error .emptyUsername ∧
     PasswordDeriver.new zeroKdf "" "b" "b" fast = PasswordDeriver.new failKdf "" "b" "b" fast) :=
  ⟨rfl, new_fail_fast zeroKdf failKdf "" "b" "b" fast .emptyUsername rfl⟩

/-- Counterexample to C6 as stated: a Ready deriver whose seed is already all
zeros is reachable through the constructor, and erasing it leaves the backing
seed bytes equal to their pre-erase value, against the claim that they no
longer equal it. -/
theorem erase_counterexample :
    PasswordDeriver.new zeroKdf "a" "b" "b" fast = .ok zeroSeedDeriver ∧
    (zeroSeedDeriver.erase).seed.data = zeroSeedDeriver.seed.data := by
  constructor
  · rfl
  · show (List.replicate 64 0).map (fun _ => 0) = List.replicate 64 0
    simp

/-- Claim C6 as amended: erase wipes the backing seed storage to zeros and
marks the container erased, so the bytes differ from their pre-erase value
whenever that value was not already all zeros; shutdown teardown of the
owning application state takes the deriver out and erases it, after which the
app-level derive_at is structurally prevented (it fails with the
no-deriver-instance error), and no operation returns the erased container to
the Ready state. -/
theorem erase_spec (d : PasswordDeriver) (app : AppData) (i : Nat)
    (happ : app.passwd_derive = some d) :
    (d.erase).seed.data = List.replicate d.seed.data.length 0 ∧
    (d.erase).seed.erased = true ∧
    (d.seed.data ≠ List.replicate d.seed.data.length 0 →
      (d.erase).seed.data ≠ d.seed.data) ∧
    (App.on_shutdown true app).1.passwd_derive = none ∧
    (App.on_shutdown true app).2 = some d.erase ∧
    (AppCtx.derive_at (App.on_shutdown true app).1 i).1 = .error .noDeriverInstance := by
  have hwipe : (d.erase).seed.data = List.replicate d.seed.data.length 0 := by
    show d.seed.data.map (fun _ => 0) = List.replicate d.seed.data.length 0
    induction d.seed.data with
    | nil => rfl
    | cons b t ih => simp [ih, List.replicate_succ]
  refine ⟨hwipe, rfl, ?_, ?_, ?_, ?_⟩
  · intro hne heq
    exact hne (heq.symm.trans hwipe)
  · simp [App.on_shutdown, happ]
  · simp [App.on_shutdown, happ]
  · simp [App.on_shutdown, happ, AppCtx.derive_at, AppData.readOp]

/-- Witness for C6 at a concrete app state holding a nonzero-seed deriver. -/
theorem erase_spec_witness :
    (sampleApp.passwd_derive = some sampleDeriver) ∧
    ((sampleDeriver.erase).seed.data = List.replicate sampleDeriver.seed.data.length 0 ∧
     (sampleDeriver.erase).seed.erased = true ∧
     (sampleDeriver.seed.data ≠ List.replicate sampleDeriver.seed.data.length 0 →
       (sampleDeriver.erase).seed.data ≠ sampleDeriver.seed.data) ∧
     (App.on_shutdown true sampleApp).1.passwd_derive = none ∧
     (App.on_shutdown true sampleApp).2 = some sampleDeriver.erase ∧
     (AppCtx.derive_at (App.on_shutdown true sampleApp).1 0).1 = .error .noDeriverInstance) :=
  ⟨rfl, erase_spec sampleDeriver sampleApp 0 rfl⟩

/-- Counterexample to C7 as stated: the temporary hex string of derive_at is
consumed (moved into SecureString::from, lib.rs line 97) but is never
explicitly overwritten with zeros in this code. -/
theorem zeroize_counterexample :
    ({ buf := "hex_string", act := .consumed } : BufEvent) ∈ deriveAtBufferTrace ∧
    ¬ zeroizedAfterConsumed deriveAtBufferTrace "hex_string" := by
  constructor
  · decide
  · rintro ⟨i, j, _, _, hzj⟩
    have hmem := List.get?_mem hzj
    have hnot : ({ buf := "hex_string", act := .zeroized } : BufEvent) ∉ deriveAtBufferTrace := by
      decide
    exact hnot hmem

/-- Claim C7 as amended: the username hash digest and the HMAC output bytes
(including the byte-vector copy) are explicitly zeroized after their values
are consumed, but the temporary hex string is handed to the SecureString
constructor without an explicit zero overwrite. -/
theorem zeroize_spec :
    zeroizedAfterConsumed newBufferTrace "digest" ∧
    zeroizedAfterConsumed deriveAtBufferTrace "hmac_output" ∧
    zeroizedAfterConsumed deriveAtBufferTrace "hash_vec" ∧
    ¬ zeroizedAfterConsumed deriveAtBufferTrace "hex_string" := by
  refine ⟨⟨1, 3, by omega, rfl, rfl⟩, ⟨1, 3, by omega, rfl, rfl⟩,
    ⟨4, 6, by omega, rfl, rfl⟩, ?_⟩
  rintro ⟨i, j, _, _, hzj⟩
  have hmem := List.get?_mem hzj
  have hnot : ({ buf := "hex_string", act := .zeroized } : BufEvent) ∉ deriveAtBufferTrace := by
    decide
  exact hnot hmem

/-- Counterexample to C8 as stated: the derived Clone of PasswordDeriver
(lib.rs line 52) is a core operation that duplicates the seed material into a
second independently owned instance whose seed bytes equal those of the original. -/
theorem clone_counterexample :
    (sampleDeriver.clone).seed.data = sampleDeriver.seed.data ∧
    (sampleDeriver.clone).seed.erased = sampleDeriver.seed.erased := ⟨rfl, rfl⟩

/-- Claim C8 as amended: the seed is created once per successful construction
and owned by its deriver, except that the derived Clone operation duplicates
the seed material: the clone of any deriver holds exactly the same seed bytes
and parameters. -/
theorem clone_spec (d : PasswordDeriver) :
    (d.clone).seed.data = d.seed.data ∧
    (d.clone).seed.erased = d.seed.erased ∧
    (d.clone).argon2 = d.argon2 := ⟨rfl, rfl, rfl⟩

/-- Claim C9: the four presets carry exactly the parameters of the table:
fast 2 GB-equivalent memory and time cost 8, normal 4 GB-equivalent and 8,
slow 8 GB-equivalent and 8, very_slow 8 GB-equivalent and 16, all with
parallelism 1 and the fixed 64-byte output length. -/
theorem presets_spec :
    fast.m_cost = gbEquiv 2 ∧ fast.t_cost = 8 ∧ fast.p_cost = 1 ∧ fast.hash_length = 64 ∧
    normal.m_cost = gbEquiv 4 ∧ normal.t_cost = 8 ∧ normal.p_cost = 1 ∧
    normal.hash_length = 64 ∧
    slow.m_cost = gbEquiv 8 ∧ slow.t_cost = 8 ∧ slow.p_cost = 1 ∧ slow.hash_length = 64 ∧
    very_slow.m_cost = gbEquiv 8 ∧ very_slow.t_cost = 16 ∧ very_slow.p_cost = 1 ∧
    very_slow.hash_length = 64 := by
  decide

/-- Claim C10: the app-level derive_at runs under shared read access and
returns the state unchanged; it returns the no-deriver-instance error exactly
when no deriver is stored, and otherwise the derive_at output of the stored
deriver for the given index. -/
theorem app_derive_at_spec (app : AppData) (i : Nat) :
    ((AppCtx.derive_at app i).2 = app) ∧
    ((AppCtx.derive_at app i).1 =
      match app.passwd_derive with
      | some d => .ok (d.derive_at i)
      | none => .error .noDeriverInstance) ∧
    ((AppCtx.derive_at app i).1 = .error .noDeriverInstance ↔ app.passwd_derive = none) := by
  refine ⟨rfl, rfl, ?_⟩
  cases happ : app.passwd_derive with
  | none => simp [AppCtx.derive_at, AppData.readOp, happ]
  | some d => simp [AppCtx.derive_at, AppData.readOp, happ]

end NoPassPlz
